import Mathlib

/-!
Shallow embedding of `src/lib/models/index.ts` (the `Models` construct of the
wakanda-griot-bot repository) and proofs about it.

The construct reads a `SystemConfig`, conditionally instantiates SageMaker
JumpStart endpoints for the supported model flags, serializes the resulting
descriptor list into an SSM string parameter, and optionally creates a
scheduler role plus start/stop schedules for the endpoints.
-/

namespace WakandaGriot

/-- Modelled from the spec: `SupportedSageMakerModels` lives in
`lib/shared/types.ts`, which is not part of the provided sources.  The spec
names FalconLite2 and Zephyr7b as the supported model flags. -/
inductive SupportedSageMakerModels where
  | FalconLite2
  | Zephyr7b
deriving DecidableEq, Repr, BEq

/-- Modelled from the spec: `Modality` lives in `lib/shared/types.ts`, which is
not part of the provided sources.  The glossary describes a modality as "the
data type (text, image, etc.) a model accepts or produces"; only `Text` is used
by `src/lib/models/index.ts`. -/
inductive Modality where
  | Text
  | Image
deriving DecidableEq, Repr

/-- Modelled from the spec: `ModelInterface` lives in `lib/shared/types.ts`,
which is not part of the provided sources; it is "an enum selecting a calling
convention".  Only `LangChain` is used by `src/lib/models/index.ts`. -/
inductive ModelInterface where
  | LangChain
deriving DecidableEq, Repr

/-- The serialized form of a `Modality` enum value (a TypeScript string enum
member serializes to its string value under `JSON.stringify`). -/
def Modality.serial : Modality → String
  | .Text => "TEXT"
  | .Image => "IMAGE"

/-- The serialized form of a `ModelInterface` enum value. -/
def ModelInterface.serial : ModelInterface → String
  | .LangChain => "langchain"

/-- The `sagemakerSchedule` sub-configuration (only its `enabled` flag is read
by `src/lib/models/index.ts`). -/
structure SageMakerScheduleConfig where
  enabled : Bool
deriving DecidableEq, Repr

/-- The `llms` section of `SystemConfig`, holding exactly the fields that
`src/lib/models/index.ts` reads: `huggingfaceApiSecretArn`,
`sagemaker` and `sagemakerSchedule`. -/
structure LlmsConfig where
  huggingfaceApiSecretArn : Option String
  sagemaker : List SupportedSageMakerModels
  sagemakerSchedule : Option SageMakerScheduleConfig
deriving DecidableEq, Repr

/-- The part of `SystemConfig` consumed by the `Models` construct. -/
structure SystemConfig where
  llms : LlmsConfig
deriving DecidableEq, Repr

/-- A `CfnEndpoint` as observed by this file: the construct only reads its
`endpointName` (in the serialization closure and in the schedule calls). -/
structure CfnEndpoint where
  endpointName : String
deriving DecidableEq, Repr

/-- `SageMakerModelEndpoint` from `lib/shared/types.ts`: the descriptor record
pushed onto `models` with its seven fields (field names as in the source). -/
structure SageMakerModelEndpoint where
  name : String
  endpoint : CfnEndpoint
  responseStreamingSupported : Bool
  inputModalities : List Modality
  outputModalities : List Modality
  interface : ModelInterface
  ragSupported : Bool
deriving DecidableEq, Repr

/-- A JSON value, covering the constructors produced by the serialization in
`src/lib/models/index.ts` (strings, booleans, arrays, and objects given as
ordered key/value lists, matching JavaScript object-literal key order). -/
inductive Json where
  | str (s : String) : Json
  | bool (b : Bool) : Json
  | arr (elems : List Json) : Json
  | obj (fields : List (String × Json)) : Json

/-- JSON string escaping for `JSON.stringify` (only the escapes that can occur
in the strings this construct serializes: quote and backslash). -/
def escapeChar (c : Char) : String :=
  if c = '"' then "\\\""
  else if c = '\\' then "\\\\"
  else String.singleton c

/-- Render a JSON string literal with surrounding quotes. -/
def renderString (s : String) : String :=
  "\"" ++ String.join (s.data.map escapeChar) ++ "\""

mutual

/-- Render a JSON value the way `JSON.stringify` does (no whitespace). -/
def Json.render : Json → String
  | .str s => renderString s
  | .bool b => if b then "true" else "false"
  | .arr elems => "[" ++ Json.renderElems elems ++ "]"
  | .obj fields => "\x7b" ++ Json.renderFields fields ++ "\x7d"

/-- Render array elements, comma separated. -/
def Json.renderElems : List Json → String
  | [] => ""
  | [j] => j.render
  | j :: rest => j.render ++ "," ++ Json.renderElems rest

/-- Render object fields, comma separated. -/
def Json.renderFields : List (String × Json) → String
  | [] => ""
  | [(k, v)] => renderString k ++ ":" ++ v.render
  | (k, v) :: rest => renderString k ++ ":" ++ v.render ++ "," ++ Json.renderFields rest

end

/-- JavaScript `s.split(sep)` for a one-character separator, on the character
list: split into the (possibly empty) groups between occurrences of `sep`. -/
def splitOnChar (sep : Char) : List Char → List (List Char)
  | [] => [[]]
  | c :: cs =>
    if c = sep then [] :: splitOnChar sep cs
    else
      match splitOnChar sep cs with
      | [] => [[c]]
      | group :: groups => (c :: group) :: groups

/-- JavaScript `s.split(sep)` for a one-character separator string. -/
def jsSplit (sep : Char) (s : String) : List String :=
  (splitOnChar sep s.data).map (fun cs => String.mk cs)

/-- JavaScript `parts.join(sep)`. -/
def jsJoin (sep : String) : List String → String
  | [] => ""
  | [p] => p
  | p :: ps => p ++ sep ++ jsJoin sep ps

/-- `id.split("/").join("-").split(".").join("-")`: the endpoint-name
derivation applied to the model identifier in both model branches. -/
def deriveEndpointName (s : String) : String :=
  jsJoin "-" (jsSplit '.' (jsJoin "-" (jsSplit '/' s)))

/-- `FALCON_LITE_2_MODEL_ID` from the FalconLite2 branch. -/
def FALCON_LITE_2_MODEL_ID : String := "Amazon/FalconLite2"

/-- `FALCON_LITE_2_ENDPOINT_NAME` from the FalconLite2 branch. -/
def FALCON_LITE_2_ENDPOINT_NAME : String :=
  deriveEndpointName FALCON_LITE_2_MODEL_ID

/-- `ZEPHYR_7B_MODEL_ID` from the Zephyr7b branch. -/
def ZEPHYR_7B_MODEL_ID : String := "HuggingFaceH4/zephyr-7b-beta"

/-- `ZEPHYR_7B_ENDPOINT_NAME` from the Zephyr7b branch. -/
def ZEPHYR_7B_ENDPOINT_NAME : String :=
  deriveEndpointName ZEPHYR_7B_MODEL_ID

/-- The JumpStart model enum values referenced by the construct. -/
inductive JumpStartModel where
  | HUGGINGFACE_LLM_AMAZON_FALCONLITE2_1_1_0
  | HUGGINGFACE_LLM_HUGGINGFACEH4_ZEPHYR_7B_BETA_1_1_0
deriving DecidableEq, Repr

/-- The SageMaker instance types referenced by the construct. -/
inductive SageMakerInstanceType where
  | ML_G5_48XLARGE
  | ML_G5_24XLARGE
deriving DecidableEq, Repr

/-- The props passed to `new JumpStartSageMakerEndpoint(...)`. -/
structure JumpStartEndpointProps where
  model : JumpStartModel
  instanceType : SageMakerInstanceType
  instanceCount : Nat
  endpointName : String
  environment : List (String × String)
deriving DecidableEq, Repr

/-- Props of the `Falcon-Lite2` endpoint (environment values are the results
of the `JSON.stringify` calls in the source). -/
def falconEndpointProps : JumpStartEndpointProps :=
  { model := JumpStartModel.HUGGINGFACE_LLM_AMAZON_FALCONLITE2_1_1_0
    instanceType := SageMakerInstanceType.ML_G5_48XLARGE
    instanceCount := 3
    endpointName := FALCON_LITE_2_ENDPOINT_NAME
    environment :=
      [ ("MAX_INPUT_TOKENS", "10000")
      , ("MAX_TOTAL_TOKENS", "24000")
      , ("MAX_BATCH_TOTAL_TOKENS", "24000")
      , ("SM_NUM_GPUS", "4")
      , ("MAX_CONCURRENT_REQUESTS", "4")
      , ("SAGEMAKER_STREAMING_ENABLED", "true")
      , ("SAGEMAKER_CONTAINER_LOG_LEVEL", "INFO") ] }

/-- Props of the `Zephyr7b` endpoint. -/
def zephyrEndpointProps : JumpStartEndpointProps :=
  { model := JumpStartModel.HUGGINGFACE_LLM_HUGGINGFACEH4_ZEPHYR_7B_BETA_1_1_0
    instanceType := SageMakerInstanceType.ML_G5_24XLARGE
    instanceCount := 3
    endpointName := ZEPHYR_7B_ENDPOINT_NAME
    environment := [] }

/-- The `cfnEndpoint` of a `JumpStartSageMakerEndpoint`: the underlying CDK
construct deploys an endpoint carrying the `endpointName` it was given. -/
def jumpStartEndpoint (props : JumpStartEndpointProps) : CfnEndpoint :=
  { endpointName := props.endpointName }

/-- The descriptor pushed in the FalconLite2 branch of the constructor. -/
def falconLite2Descriptor : SageMakerModelEndpoint :=
  { name := "jumpstart-" ++ FALCON_LITE_2_ENDPOINT_NAME
    endpoint := jumpStartEndpoint falconEndpointProps
    responseStreamingSupported := true
    inputModalities := [Modality.Text]
    outputModalities := [Modality.Text]
    interface := ModelInterface.LangChain
    ragSupported := true }

/-- The descriptor pushed in the Zephyr7b branch of the constructor. -/
def zephyr7bDescriptor : SageMakerModelEndpoint :=
  { name := "jumpstart-" ++ ZEPHYR_7B_ENDPOINT_NAME
    endpoint := jumpStartEndpoint zephyrEndpointProps
    responseStreamingSupported := false
    inputModalities := [Modality.Text]
    outputModalities := [Modality.Text]
    interface := ModelInterface.LangChain
    ragSupported := true }

/-- The projection applied in `models.map((model) => ({...}))` inside the
`ModelsParameter` declaration: each descriptor becomes a JSON object with its
seven fields, the `endpoint` field replaced by `model.endpoint.endpointName`. -/
def projectModel (m : SageMakerModelEndpoint) : Json :=
  Json.obj
    [ ("name", Json.str m.name)
    , ("endpoint", Json.str m.endpoint.endpointName)
    , ("responseStreamingSupported", Json.bool m.responseStreamingSupported)
    , ("inputModalities", Json.arr (m.inputModalities.map (fun mo => Json.str mo.serial)))
    , ("outputModalities", Json.arr (m.outputModalities.map (fun mo => Json.str mo.serial)))
    , ("interface", Json.str m.interface.serial)
    , ("ragSupported", Json.bool m.ragSupported) ]

/-- Which schedule a `createStartSchedule` / `createStopSchedule` call creates. -/
inductive ScheduleKind where
  | start
  | stop
deriving DecidableEq, Repr

/-- Modelled from the spec: `createStartSchedule` and `createStopSchedule` come
from `lib/models/sagemaker-schedule.ts`, which is not part of the provided
sources.  The spec only says the construct may "attach start/stop scheduling
resources and a scheduler role", so each call is modelled as creating one
schedule resource that references the endpoint it was given and the scheduler
role it was given. -/
structure ScheduleResource where
  kind : ScheduleKind
  endpoint : CfnEndpoint
  usesSchedulerRole : Bool
deriving DecidableEq, Repr

/-- Modelled from the spec: one start-schedule resource per
`createStartSchedule` call, referencing the model endpoint and scheduler role. -/
def createStartSchedule (endpoint : CfnEndpoint) : ScheduleResource :=
  { kind := ScheduleKind.start, endpoint := endpoint, usesSchedulerRole := true }

/-- Modelled from the spec: one stop-schedule resource per
`createStopSchedule` call, referencing the model endpoint and scheduler role. -/
def createStopSchedule (endpoint : CfnEndpoint) : ScheduleResource :=
  { kind := ScheduleKind.stop, endpoint := endpoint, usesSchedulerRole := true }

/-- The guard of the scheduling block:
`models.length > 0 && props.config.llms?.sagemakerSchedule?.enabled`. -/
def schedulingGuard (config : SystemConfig)
    (models2 : List SageMakerModelEndpoint) : Bool :=
  decide (models2.length > 0) &&
    (match config.llms.sagemakerSchedule with
      | some sch => sch.enabled
      | none => false)

/-- The observable outcome of running the `Models` constructor: the public
`models` list, the string value stored in the `ModelsParameter` SSM parameter,
whether the `HFTokenSecret` lookup happened, whether the `SchedulerRole` was
created, and the list of schedule resources created (in creation order). -/
structure ModelsOutcome where
  models : List SageMakerModelEndpoint
  modelsParameterValue : String
  hfTokenSecretLookedUp : Bool
  schedulerRoleCreated : Bool
  schedules : List ScheduleResource
deriving DecidableEq, Repr

/-- The `Models` constructor from `src/lib/models/index.ts`, step for step:
optionally look up the HuggingFace token secret, push the FalconLite2
descriptor if its flag is in `config.llms.sagemaker`, push the Zephyr7b
descriptor if its flag is there, serialize the list into the parameter value,
and — only when the list is nonempty and `sagemakerSchedule` is present and
enabled — create the scheduler role and, for each model in order, one start
schedule then one stop schedule on that model's endpoint. -/
def buildModels (config : SystemConfig) : ModelsOutcome :=
  let hfLookedUp := config.llms.huggingfaceApiSecretArn.isSome
  let models0 : List SageMakerModelEndpoint := []
  let models1 :=
    if config.llms.sagemaker.contains SupportedSageMakerModels.FalconLite2 then
      models0 ++ [falconLite2Descriptor]
    else models0
  let models2 :=
    if config.llms.sagemaker.contains SupportedSageMakerModels.Zephyr7b then
      models1 ++ [zephyr7bDescriptor]
    else models1
  let paramValue := (Json.arr (models2.map projectModel)).render
  let schedulingOn : Bool := schedulingGuard config models2
  let schedules :=
    if schedulingOn then
      models2.flatMap (fun m =>
        [createStartSchedule m.endpoint, createStopSchedule m.endpoint])
    else []
  { models := models2
    modelsParameterValue := paramValue
    hfTokenSecretLookedUp := hfLookedUp
    schedulerRoleCreated := schedulingOn
    schedules := schedules }

/-- Spec-side description of the name derivation: replace every `/` and every
`.` of the identifier by `-` (used to compare with `deriveEndpointName`, which
embeds the `split/join` chain of the source). -/
def replaceSlashDot (s : String) : String :=
  String.mk (s.data.map (fun c => if c = '/' || c = '.' then '-' else c))

/-- Whether a serialized JSON value is a descriptor object carrying the given
model name (the projection always puts the `name` field first). -/
def jsonHasName (n : String) : Json → Bool
  | .obj (("name", .str m) :: _) => m == n
  | _ => false

/-- The SDK calls the constructor makes, each of which may fail.  Modelling
them as `Except`-valued parameters lets us state that the constructor threads
any SDK failure through unchanged. -/
structure SdkCalls (ε : Type) where
  fromSecretCompleteArn : String → Except ε Unit
  createJumpStartEndpoint : JumpStartEndpointProps → Except ε CfnEndpoint
  createStringParameter : String → Except ε Unit
  createRole : Except ε Unit
  createStartSchedule : CfnEndpoint → Except ε ScheduleResource
  createStopSchedule : CfnEndpoint → Except ε ScheduleResource

/-- The `HFTokenSecret` lookup, performed only when
`huggingfaceApiSecretArn` is set. -/
def hfStep {ε : Type} (sdk : SdkCalls ε) (config : SystemConfig) : Except ε Bool :=
  match config.llms.huggingfaceApiSecretArn with
  | some arn => (sdk.fromSecretCompleteArn arn).bind (fun _ => Except.ok true)
  | none => Except.ok false

/-- The FalconLite2 branch: create the endpoint and push its descriptor. -/
def falconStep {ε : Type} (sdk : SdkCalls ε) (config : SystemConfig) :
    Except ε (List SageMakerModelEndpoint) :=
  if config.llms.sagemaker.contains SupportedSageMakerModels.FalconLite2 then
    (sdk.createJumpStartEndpoint falconEndpointProps).bind
      (fun ep => Except.ok [{ falconLite2Descriptor with endpoint := ep }])
  else Except.ok []

/-- The Zephyr7b branch: create the endpoint and push its descriptor. -/
def zephyrStep {ε : Type} (sdk : SdkCalls ε) (config : SystemConfig)
    (models1 : List SageMakerModelEndpoint) :
    Except ε (List SageMakerModelEndpoint) :=
  if config.llms.sagemaker.contains SupportedSageMakerModels.Zephyr7b then
    (sdk.createJumpStartEndpoint zephyrEndpointProps).bind
      (fun ep => Except.ok (models1 ++ [{ zephyr7bDescriptor with endpoint := ep }]))
  else Except.ok models1

/-- The `models.forEach` loop of the scheduling block: one start schedule then
one stop schedule per model, in list order. -/
def scheduleAll {ε : Type} (sdk : SdkCalls ε) :
    List SageMakerModelEndpoint → Except ε (List ScheduleResource)
  | [] => Except.ok []
  | m :: ms =>
    (sdk.createStartSchedule m.endpoint).bind (fun s1 =>
      (sdk.createStopSchedule m.endpoint).bind (fun s2 =>
        (scheduleAll sdk ms).bind (fun rest => Except.ok (s1 :: s2 :: rest))))

/-- The scheduling block: when the guard holds, create the scheduler role and
then the schedules for every model. -/
def scheduleStep {ε : Type} (sdk : SdkCalls ε) (config : SystemConfig)
    (models2 : List SageMakerModelEndpoint) : Except ε (List ScheduleResource) :=
  if schedulingGuard config models2 then
    sdk.createRole.bind (fun _ => scheduleAll sdk models2)
  else Except.ok []

/-- The `Models` constructor with its SDK calls made explicit and fallible:
the same steps as `buildModels`, in source order, threaded through `Except`
without any catching, wrapping or classification of failures. -/
def buildModelsE {ε : Type} (sdk : SdkCalls ε) (config : SystemConfig) :
    Except ε ModelsOutcome :=
  (hfStep sdk config).bind (fun hfLookedUp =>
    (falconStep sdk config).bind (fun models1 =>
      (zephyrStep sdk config models1).bind (fun models2 =>
        (sdk.createStringParameter (Json.arr (models2.map projectModel)).render).bind
          (fun _ =>
            (scheduleStep sdk config models2).bind (fun schedules =>
              Except.ok
                { models := models2
                  modelsParameterValue := (Json.arr (models2.map projectModel)).render
                  hfTokenSecretLookedUp := hfLookedUp
                  schedulerRoleCreated := schedulingGuard config models2
                  schedules := schedules })))))

/-- The SDK whose calls never fail and deploy the resources as modelled in the
pure embedding. -/
def pureSdk (ε : Type) : SdkCalls ε :=
  { fromSecretCompleteArn := fun _ => Except.ok ()
    createJumpStartEndpoint := fun props => Except.ok (jumpStartEndpoint props)
    createStringParameter := fun _ => Except.ok ()
    createRole := Except.ok ()
    createStartSchedule := fun ep => Except.ok (createStartSchedule ep)
    createStopSchedule := fun ep => Except.ok (createStopSchedule ep) }

/-- `S` bounds the errors the SDK itself can raise: every `Except.error`
result of any of the six calls carries an error satisfying `S`. -/
def SdkErrorsIn {ε : Type} (sdk : SdkCalls ε) (S : ε → Prop) : Prop :=
  (∀ arn e, sdk.fromSecretCompleteArn arn = Except.error e → S e) ∧
  (∀ props e, sdk.createJumpStartEndpoint props = Except.error e → S e) ∧
  (∀ s e, sdk.createStringParameter s = Except.error e → S e) ∧
  (∀ e, sdk.createRole = Except.error e → S e) ∧
  (∀ ep e, sdk.createStartSchedule ep = Except.error e → S e) ∧
  (∀ ep e, sdk.createStopSchedule ep = Except.error e → S e)

/-- An SDK whose secret lookup always fails, used to exhibit a run in which an
SDK error actually occurs. -/
def failingSdk : SdkCalls String :=
  { fromSecretCompleteArn := fun _ => Except.error "secret lookup failed"
    createJumpStartEndpoint := fun props => Except.ok (jumpStartEndpoint props)
    createStringParameter := fun _ => Except.ok ()
    createRole := Except.ok ()
    createStartSchedule := fun ep => Except.ok (createStartSchedule ep)
    createStopSchedule := fun ep => Except.ok (createStopSchedule ep) }

end WakandaGriot

namespace WakandaGriot

/-- The models list of the constructor outcome, written as the concatenation
of the two conditional pushes (FalconLite2 branch first, Zephyr7b second). -/
theorem buildModels_models_eq (config : SystemConfig) :
    (buildModels config).models =
      (if config.llms.sagemaker.contains SupportedSageMakerModels.FalconLite2 then
        [falconLite2Descriptor] else []) ++
      (if config.llms.sagemaker.contains SupportedSageMakerModels.Zephyr7b then
        [zephyr7bDescriptor] else []) := by
  unfold buildModels
  cases hF : config.llms.sagemaker.contains SupportedSageMakerModels.FalconLite2 <;>
    cases hZ : config.llms.sagemaker.contains SupportedSageMakerModels.Zephyr7b <;>
      simp [hF, hZ]

/-- The parameter string value is the rendering of the projected models list. -/
theorem buildModels_param_eq (config : SystemConfig) :
    (buildModels config).modelsParameterValue =
      (Json.arr ((buildModels config).models.map projectModel)).render := rfl

/-- The scheduler role is created exactly when the scheduling guard holds. -/
theorem buildModels_role_eq (config : SystemConfig) :
    (buildModels config).schedulerRoleCreated =
      schedulingGuard config (buildModels config).models := rfl

/-- The schedules created are the per-model start/stop pairs, guarded by the
scheduling guard. -/
theorem buildModels_schedules_eq (config : SystemConfig) :
    (buildModels config).schedules =
      (if schedulingGuard config (buildModels config).models then
        (buildModels config).models.flatMap (fun m =>
          [createStartSchedule m.endpoint, createStopSchedule m.endpoint])
      else []) := rfl

/-- C1: for every configuration, the string value stored in the
`ModelsParameter` SSM parameter is the rendering of a JSON array of objects,
and every object in the array has exactly the keys `name`, `endpoint`,
`responseStreamingSupported`, `inputModalities`, `outputModalities`,
`interface`, `ragSupported`, in that order. -/
theorem c1_parameter_shape (config : SystemConfig) :
    ∃ elems : List Json,
      (buildModels config).modelsParameterValue = (Json.arr elems).render ∧
      ∀ j ∈ elems, ∃ fields, j = Json.obj fields ∧
        fields.map Prod.fst =
          ["name", "endpoint", "responseStreamingSupported", "inputModalities",
           "outputModalities", "interface", "ragSupported"] := by
  refine ⟨(buildModels config).models.map projectModel, rfl, ?_⟩
  intro j hj
  obtain ⟨m, _, rfl⟩ := List.mem_map.mp hj
  exact ⟨_, rfl, rfl⟩

/-- Witness for C1 at a concrete configuration with both model flags set. -/
theorem c1_witness :
    ∃ elems : List Json,
      (buildModels ⟨⟨none,
          [SupportedSageMakerModels.FalconLite2, SupportedSageMakerModels.Zephyr7b],
          none⟩⟩).modelsParameterValue = (Json.arr elems).render ∧
      ∀ j ∈ elems, ∃ fields, j = Json.obj fields ∧
        fields.map Prod.fst =
          ["name", "endpoint", "responseStreamingSupported", "inputModalities",
           "outputModalities", "interface", "ragSupported"] :=
  c1_parameter_shape ⟨⟨none,
    [SupportedSageMakerModels.FalconLite2, SupportedSageMakerModels.Zephyr7b], none⟩⟩

/-- C2: if a supported model flag is in the sagemaker list, the models list
(and hence the serialized array) contains exactly one descriptor with the
derived name for that model, and that descriptor has `inputModalities` and
`outputModalities` both `[Text]` and `interface` `LangChain`; if the flag is
absent, no descriptor with that name appears. -/
theorem c2_flag_descriptors (config : SystemConfig) :
    (config.llms.sagemaker.contains SupportedSageMakerModels.FalconLite2 = true →
      (buildModels config).models.countP
          (fun d => decide (d.name = "jumpstart-Amazon-FalconLite2")) = 1 ∧
      ((buildModels config).models.map projectModel).countP
          (jsonHasName "jumpstart-Amazon-FalconLite2") = 1 ∧
      ∀ d ∈ (buildModels config).models,
        d.name = "jumpstart-Amazon-FalconLite2" →
          d.inputModalities = [Modality.Text] ∧
          d.outputModalities = [Modality.Text] ∧
          d.interface = ModelInterface.LangChain) ∧
    (config.llms.sagemaker.contains SupportedSageMakerModels.FalconLite2 = false →
      (buildModels config).models.countP
          (fun d => decide (d.name = "jumpstart-Amazon-FalconLite2")) = 0) ∧
    (config.llms.sagemaker.contains SupportedSageMakerModels.Zephyr7b = true →
      (buildModels config).models.countP
          (fun d => decide (d.name = "jumpstart-HuggingFaceH4-zephyr-7b-beta")) = 1 ∧
      ((buildModels config).models.map projectModel).countP
          (jsonHasName "jumpstart-HuggingFaceH4-zephyr-7b-beta") = 1 ∧
      ∀ d ∈ (buildModels config).models,
        d.name = "jumpstart-HuggingFaceH4-zephyr-7b-beta" →
          d.inputModalities = [Modality.Text] ∧
          d.outputModalities = [Modality.Text] ∧
          d.interface = ModelInterface.LangChain) ∧
    (config.llms.sagemaker.contains SupportedSageMakerModels.Zephyr7b = false →
      (buildModels config).models.countP
          (fun d => decide (d.name = "jumpstart-HuggingFaceH4-zephyr-7b-beta")) = 0) := by
  have hm := buildModels_models_eq config
  cases hF : config.llms.sagemaker.contains SupportedSageMakerModels.FalconLite2 <;>
    cases hZ : config.llms.sagemaker.contains SupportedSageMakerModels.Zephyr7b <;>
      rw [hF, hZ] at hm <;> simp [hm, hF, hZ] <;> decide

/-- Witness for C2: with both flags enabled there is exactly one FalconLite2
descriptor. -/
theorem c2_witness :
    (buildModels ⟨⟨none,
        [SupportedSageMakerModels.FalconLite2, SupportedSageMakerModels.Zephyr7b],
        none⟩⟩).models.countP
      (fun d => decide (d.name = "jumpstart-Amazon-FalconLite2")) = 1 :=
  ((c2_flag_descriptors ⟨⟨none,
      [SupportedSageMakerModels.FalconLite2, SupportedSageMakerModels.Zephyr7b],
      none⟩⟩).1 (by decide)).1

/-- C3: every descriptor in the models list has a name derived from one of the
two model identifier strings by replacing every `/` and every `.` with `-`
(the split/join chain of the source agrees with that replacement) and
prepending `jumpstart-`; the derivation depends on the identifier alone, for
every configuration. -/
theorem c3_name_derivation (config : SystemConfig) :
    ∀ d ∈ (buildModels config).models,
      ∃ id, (id = FALCON_LITE_2_MODEL_ID ∨ id = ZEPHYR_7B_MODEL_ID) ∧
        d.name = "jumpstart-" ++ deriveEndpointName id ∧
        deriveEndpointName id = replaceSlashDot id := by
  intro d hd
  rw [buildModels_models_eq config] at hd
  rcases List.mem_append.mp hd with h | h
  · split at h
    · rw [List.mem_singleton] at h
      subst h
      exact ⟨FALCON_LITE_2_MODEL_ID, Or.inl rfl, rfl, by decide⟩
    · exact absurd h (List.not_mem_nil d)
  · split at h
    · rw [List.mem_singleton] at h
      subst h
      exact ⟨ZEPHYR_7B_MODEL_ID, Or.inr rfl, rfl, by decide⟩
    · exact absurd h (List.not_mem_nil d)

/-- Witness for C3 at the FalconLite2 descriptor of a concrete configuration. -/
theorem c3_witness :
    ∃ id, (id = FALCON_LITE_2_MODEL_ID ∨ id = ZEPHYR_7B_MODEL_ID) ∧
      falconLite2Descriptor.name = "jumpstart-" ++ deriveEndpointName id ∧
      deriveEndpointName id = replaceSlashDot id :=
  c3_name_derivation ⟨⟨none, [SupportedSageMakerModels.FalconLite2], none⟩⟩
    falconLite2Descriptor (by decide)

/-- C4 counterexample: with `sagemakerSchedule` enabled but no model flag set,
the scheduling block is skipped (the guard also requires `models.length > 0`),
so no scheduler role and no schedules are created, contradicting the claim as
stated. -/
theorem c4_counterexample :
    ((⟨⟨none, [], some ⟨true⟩⟩⟩ : SystemConfig).llms.sagemakerSchedule = some ⟨true⟩) ∧
    (buildModels ⟨⟨none, [], some ⟨true⟩⟩⟩).schedulerRoleCreated = false ∧
    (buildModels ⟨⟨none, [], some ⟨true⟩⟩⟩).schedules = [] := by decide

/-- C4 (amended): with `sagemakerSchedule` enabled and a nonempty models list,
the scheduler role is created and every model gets exactly one start and one
stop schedule on its endpoint, all referencing the scheduler role; when the
schedule is not enabled or the models list is empty, neither the role nor any
schedule is created. -/
theorem c4_scheduling (config : SystemConfig) :
    ((buildModels config).models ≠ [] →
      (∃ sch, config.llms.sagemakerSchedule = some sch ∧ sch.enabled = true) →
      (buildModels config).schedulerRoleCreated = true ∧
      (∀ d ∈ (buildModels config).models,
        (buildModels config).schedules.countP
            (fun s => decide (s.kind = ScheduleKind.start ∧ s.endpoint = d.endpoint)) = 1 ∧
        (buildModels config).schedules.countP
            (fun s => decide (s.kind = ScheduleKind.stop ∧ s.endpoint = d.endpoint)) = 1) ∧
      (∀ s ∈ (buildModels config).schedules, s.usesSchedulerRole = true)) ∧
    (((buildModels config).models = [] ∨
        (∀ sch, config.llms.sagemakerSchedule = some sch → sch.enabled = false)) →
      (buildModels config).schedulerRoleCreated = false ∧
      (buildModels config).schedules = []) := by
  constructor
  · intro hne hex
    obtain ⟨sch, hS, hen⟩ := hex
    have hguard : schedulingGuard config (buildModels config).models = true := by
      unfold schedulingGuard
      rw [hS]
      simp [hen, List.length_pos, hne]
    have hs := buildModels_schedules_eq config
    rw [hguard] at hs
    simp at hs
    refine ⟨by rw [buildModels_role_eq, hguard], ?_, ?_⟩
    · have hm := buildModels_models_eq config
      cases hF : config.llms.sagemaker.contains SupportedSageMakerModels.FalconLite2 <;>
        cases hZ : config.llms.sagemaker.contains SupportedSageMakerModels.Zephyr7b <;>
          rw [hF, hZ] at hm <;> simp at hm
      · rw [hm] at hne; exact absurd rfl hne
      all_goals (rw [hm] at hs ⊢; rw [hs]; decide)
    · intro s hmem
      rw [hs] at hmem
      obtain ⟨m, _, hsm⟩ := List.mem_flatMap.mp hmem
      simp at hsm
      rcases hsm with rfl | rfl
      · rfl
      · rfl
  · intro h
    have hguard : schedulingGuard config (buildModels config).models = false := by
      rcases h with h | h
      · simp [schedulingGuard, h]
      · unfold schedulingGuard
        cases hS : config.llms.sagemakerSchedule with
        | none => simp
        | some sch => simp [h sch hS]
    exact ⟨by rw [buildModels_role_eq, hguard],
      by rw [buildModels_schedules_eq, hguard]; rfl⟩

/-- Witness for C4 (amended): a configuration with one model and the schedule
enabled does get the scheduler role. -/
theorem c4_witness :
    (buildModels ⟨⟨none, [SupportedSageMakerModels.FalconLite2],
        some ⟨true⟩⟩⟩).schedulerRoleCreated = true :=
  ((c4_scheduling ⟨⟨none, [SupportedSageMakerModels.FalconLite2], some ⟨true⟩⟩⟩).1
    (by decide) ⟨⟨true⟩, rfl, rfl⟩).1

/-- C5: the serialized parameter value is exactly the rendering of the JSON
array obtained by mapping the seven-field projection (with `endpoint` replaced
by the endpoint's name) over the public models list, in the same order. -/
theorem c5_serialization (config : SystemConfig) :
    (buildModels config).modelsParameterValue =
      Json.render (Json.arr ((buildModels config).models.map projectModel)) := rfl

/-- C6: the construction is deterministic; equal configurations give equal
models lists and equal serialized parameter values. -/
theorem c6_deterministic (c1 c2 : SystemConfig) (h : c1 = c2) :
    (buildModels c1).models = (buildModels c2).models ∧
    (buildModels c1).modelsParameterValue = (buildModels c2).modelsParameterValue := by
  subst h; exact ⟨rfl, rfl⟩

/-- Witness for C6 at a concrete configuration. -/
theorem c6_witness :
    (buildModels ⟨⟨none, [SupportedSageMakerModels.FalconLite2], none⟩⟩).models =
      (buildModels ⟨⟨none, [SupportedSageMakerModels.FalconLite2], none⟩⟩).models ∧
    (buildModels ⟨⟨none, [SupportedSageMakerModels.FalconLite2], none⟩⟩).modelsParameterValue =
      (buildModels ⟨⟨none, [SupportedSageMakerModels.FalconLite2], none⟩⟩).modelsParameterValue :=
  c6_deterministic ⟨⟨none, [SupportedSageMakerModels.FalconLite2], none⟩⟩
    ⟨⟨none, [SupportedSageMakerModels.FalconLite2], none⟩⟩ rfl

end WakandaGriot

namespace WakandaGriot

/-- Errors of the `HFTokenSecret` lookup step come from the secret-lookup SDK
call. -/
theorem hfStep_error {ε : Type} (sdk : SdkCalls ε) (config : SystemConfig)
    (S : ε → Prop)
    (hSec : ∀ arn e, sdk.fromSecretCompleteArn arn = Except.error e → S e) :
    ∀ e, hfStep sdk config = Except.error e → S e := by
  intro e he
  cases harn : config.llms.huggingfaceApiSecretArn with
  | none => simp [hfStep, harn] at he
  | some arn =>
    simp only [hfStep, harn] at he
    cases hc : sdk.fromSecretCompleteArn arn with
    | error e2 =>
      rw [hc] at he
      simp [Except.bind] at he
      exact he ▸ hSec arn e2 hc
    | ok u =>
      rw [hc] at he
      simp [Except.bind] at he

/-- Errors of the FalconLite2 branch come from the endpoint-creation SDK call. -/
theorem falconStep_error {ε : Type} (sdk : SdkCalls ε) (config : SystemConfig)
    (S : ε → Prop)
    (hEp : ∀ props e, sdk.createJumpStartEndpoint props = Except.error e → S e) :
    ∀ e, falconStep sdk config = Except.error e → S e := by
  intro e he
  unfold falconStep at he
  split at he
  · cases hc : sdk.createJumpStartEndpoint falconEndpointProps with
    | error e2 =>
      rw [hc] at he
      simp [Except.bind] at he
      exact he ▸ hEp _ e2 hc
    | ok ep =>
      rw [hc] at he
      simp [Except.bind] at he
  · simp at he

/-- Errors of the Zephyr7b branch come from the endpoint-creation SDK call. -/
theorem zephyrStep_error {ε : Type} (sdk : SdkCalls ε) (config : SystemConfig)
    (models1 : List SageMakerModelEndpoint) (S : ε → Prop)
    (hEp : ∀ props e, sdk.createJumpStartEndpoint props = Except.error e → S e) :
    ∀ e, zephyrStep sdk config models1 = Except.error e → S e := by
  intro e he
  unfold zephyrStep at he
  split at he
  · cases hc : sdk.createJumpStartEndpoint zephyrEndpointProps with
    | error e2 =>
      rw [hc] at he
      simp [Except.bind] at he
      exact he ▸ hEp _ e2 hc
    | ok ep =>
      rw [hc] at he
      simp [Except.bind] at he
  · simp at he

/-- Errors of the schedule loop come from the start/stop-schedule SDK calls. -/
theorem scheduleAll_error {ε : Type} (sdk : SdkCalls ε) (S : ε → Prop)
    (hStart : ∀ ep e, sdk.createStartSchedule ep = Except.error e → S e)
    (hStop : ∀ ep e, sdk.createStopSchedule ep = Except.error e → S e) :
    ∀ ms e, scheduleAll sdk ms = Except.error e → S e := by
  intro ms
  induction ms with
  | nil => intro e he; simp [scheduleAll] at he
  | cons m ms ih =>
    intro e he
    unfold scheduleAll at he
    cases h1 : sdk.createStartSchedule m.endpoint with
    | error e1 =>
      rw [h1] at he
      simp [Except.bind] at he
      exact he ▸ hStart _ e1 h1
    | ok s1 =>
      rw [h1] at he
      simp only [Except.bind] at he
      cases h2 : sdk.createStopSchedule m.endpoint with
      | error e2 =>
        rw [h2] at he
        simp at he
        exact he ▸ hStop _ e2 h2
      | ok s2 =>
        rw [h2] at he
        simp only at he
        cases h3 : scheduleAll sdk ms with
        | error e3 =>
          rw [h3] at he
          simp at he
          exact he ▸ ih e3 h3
        | ok rest =>
          rw [h3] at he
          simp at he

/-- Errors of the scheduling block come from the role-creation or schedule SDK
calls. -/
theorem scheduleStep_error {ε : Type} (sdk : SdkCalls ε) (config : SystemConfig)
    (models2 : List SageMakerModelEndpoint) (S : ε → Prop)
    (hRole : ∀ e, sdk.createRole = Except.error e → S e)
    (hStart : ∀ ep e, sdk.createStartSchedule ep = Except.error e → S e)
    (hStop : ∀ ep e, sdk.createStopSchedule ep = Except.error e → S e) :
    ∀ e, scheduleStep sdk config models2 = Except.error e → S e := by
  intro e he
  unfold scheduleStep at he
  split at he
  · cases h1 : sdk.createRole with
    | error e1 =>
      rw [h1] at he
      simp [Except.bind] at he
      exact he ▸ hRole e1 h1
    | ok u =>
      rw [h1] at he
      simp only [Except.bind] at he
      exact scheduleAll_error sdk S hStart hStop models2 e he
  · simp at he

/-- C7: the constructor contains no error handling of its own: whenever the
fallible constructor returns an error, that error is one raised verbatim by an
underlying SDK call (any property `S` bounding the errors every SDK call can
raise also bounds every error the constructor returns — nothing is caught,
wrapped or classified). -/
theorem c7_error_propagation {ε : Type} (sdk : SdkCalls ε) (S : ε → Prop)
    (h : SdkErrorsIn sdk S) (config : SystemConfig) :
    ∀ e, buildModelsE sdk config = Except.error e → S e := by
  obtain ⟨hSec, hEp, hParam, hRole, hStart, hStop⟩ := h
  intro e he
  unfold buildModelsE at he
  cases h1 : hfStep sdk config with
  | error e1 =>
    rw [h1] at he
    simp [Except.bind] at he
    exact he ▸ hfStep_error sdk config S hSec e1 h1
  | ok hf =>
    rw [h1] at he
    simp only [Except.bind] at he
    cases h2 : falconStep sdk config with
    | error e2 =>
      rw [h2] at he
      simp at he
      exact he ▸ falconStep_error sdk config S hEp e2 h2
    | ok models1 =>
      rw [h2] at he
      simp only at he
      cases h3 : zephyrStep sdk config models1 with
      | error e3 =>
        rw [h3] at he
        simp at he
        exact he ▸ zephyrStep_error sdk config models1 S hEp e3 h3
      | ok models2 =>
        rw [h3] at he
        simp only at he
        cases h4 : sdk.createStringParameter (Json.arr (models2.map projectModel)).render with
        | error e4 =>
          rw [h4] at he
          simp at he
          exact he ▸ hParam _ e4 h4
        | ok u =>
          rw [h4] at he
          simp only at he
          cases h5 : scheduleStep sdk config models2 with
          | error e5 =>
            rw [h5] at he
            simp at he
            exact he ▸ scheduleStep_error sdk config models2 S hRole hStart hStop e5 h5
          | ok schedules =>
            rw [h5] at he
            simp at he

/-- Witness for C7: an SDK whose secret lookup fails makes the constructor
return exactly that error. -/
theorem c7_witness : "secret lookup failed" = "secret lookup failed" :=
  c7_error_propagation failingSdk (fun e => e = "secret lookup failed")
    ⟨fun _ _ h => (Except.error.inj h).symm,
     fun _ _ h => Except.noConfusion h,
     fun _ _ h => Except.noConfusion h,
     fun _ h => Except.noConfusion h,
     fun _ _ h => Except.noConfusion h,
     fun _ _ h => Except.noConfusion h⟩
    ⟨⟨some "arn:aws:secretsmanager:region:account:secret:hf-token", [], none⟩⟩
    "secret lookup failed" rfl

/-- Replacing the endpoint of the FalconLite2 descriptor by the endpoint it is
built from changes nothing. -/
theorem falconDescriptor_update_eq :
    ({ falconLite2Descriptor with endpoint := jumpStartEndpoint falconEndpointProps } :
      SageMakerModelEndpoint) = falconLite2Descriptor := rfl

/-- Replacing the endpoint of the Zephyr7b descriptor by the endpoint it is
built from changes nothing. -/
theorem zephyrDescriptor_update_eq :
    ({ zephyr7bDescriptor with endpoint := jumpStartEndpoint zephyrEndpointProps } :
      SageMakerModelEndpoint) = zephyr7bDescriptor := rfl

/-- The FalconLite2 descriptor's endpoint is the created JumpStart endpoint. -/
theorem falconDescriptor_endpoint_eq :
    falconLite2Descriptor.endpoint = jumpStartEndpoint falconEndpointProps := rfl

/-- The Zephyr7b descriptor's endpoint is the created JumpStart endpoint. -/
theorem zephyrDescriptor_endpoint_eq :
    zephyr7bDescriptor.endpoint = jumpStartEndpoint zephyrEndpointProps := rfl

/-- With an SDK that never fails, the fallible constructor computes exactly
the pure outcome: the `Except` embedding refines `buildModels`. -/
theorem buildModelsE_pure_refines (ε : Type) (config : SystemConfig) :
    buildModelsE (pureSdk ε) config = Except.ok (buildModels config) := by
  obtain ⟨⟨arn, sag, sched⟩⟩ := config
  cases arn <;>
    cases hF : sag.contains SupportedSageMakerModels.FalconLite2 <;>
      cases hZ : sag.contains SupportedSageMakerModels.Zephyr7b <;>
        rcases sched with _ | ⟨(_ | _)⟩ <;>
          simp [buildModelsE, buildModels, hfStep, falconStep, zephyrStep,
            scheduleStep, scheduleAll, schedulingGuard, pureSdk, Except.bind,
            hF, hZ, falconDescriptor_update_eq, zephyrDescriptor_update_eq,
            falconDescriptor_endpoint_eq, zephyrDescriptor_endpoint_eq]

/-- C8: when both flags are enabled the FalconLite2 descriptor precedes the
Zephyr7b descriptor in the models list and in the serialized array, and only
the FalconLite2 descriptor has `responseStreamingSupported` set. -/
theorem c8_order_and_streaming (config : SystemConfig)
    (hF : config.llms.sagemaker.contains SupportedSageMakerModels.FalconLite2 = true)
    (hZ : config.llms.sagemaker.contains SupportedSageMakerModels.Zephyr7b = true) :
    (buildModels config).models = [falconLite2Descriptor, zephyr7bDescriptor] ∧
    falconLite2Descriptor.responseStreamingSupported = true ∧
    zephyr7bDescriptor.responseStreamingSupported = false ∧
    (buildModels config).modelsParameterValue =
      (Json.arr [projectModel falconLite2Descriptor, projectModel zephyr7bDescriptor]).render := by
  have hm : (buildModels config).models = [falconLite2Descriptor, zephyr7bDescriptor] := by
    rw [buildModels_models_eq, hF, hZ]; rfl
  refine ⟨hm, rfl, rfl, ?_⟩
  rw [buildModels_param_eq, hm]; rfl

/-- Witness for C8 at a concrete configuration with both flags. -/
theorem c8_witness :
    (buildModels ⟨⟨none, [SupportedSageMakerModels.FalconLite2, SupportedSageMakerModels.Zephyr7b], none⟩⟩).models
      = [falconLite2Descriptor, zephyr7bDescriptor] :=
  (c8_order_and_streaming
    ⟨⟨none, [SupportedSageMakerModels.FalconLite2, SupportedSageMakerModels.Zephyr7b], none⟩⟩
    (by decide) (by decide)).1

/-- C9: with no supported model flag enabled, the models list is empty, the
parameter value is the empty JSON array, and no scheduler role and no
schedules are created — for every configuration, including those with
`sagemakerSchedule` enabled. -/
theorem c9_no_flags (config : SystemConfig)
    (hF : config.llms.sagemaker.contains SupportedSageMakerModels.FalconLite2 = false)
    (hZ : config.llms.sagemaker.contains SupportedSageMakerModels.Zephyr7b = false) :
    (buildModels config).models = [] ∧
    (buildModels config).modelsParameterValue = "[]" ∧
    (buildModels config).schedulerRoleCreated = false ∧
    (buildModels config).schedules = [] := by
  have hm : (buildModels config).models = [] := by
    rw [buildModels_models_eq, hF, hZ]; rfl
  refine ⟨hm, ?_, ?_, ?_⟩
  · rw [buildModels_param_eq, hm]; rfl
  · rw [buildModels_role_eq, hm]; rfl
  · rw [buildModels_schedules_eq, hm]; rfl

/-- Witness for C9 at a configuration with the schedule enabled but no flags. -/
theorem c9_witness :
    (buildModels ⟨⟨none, [], some ⟨true⟩⟩⟩).models = [] ∧
    (buildModels ⟨⟨none, [], some ⟨true⟩⟩⟩).modelsParameterValue = "[]" ∧
    (buildModels ⟨⟨none, [], some ⟨true⟩⟩⟩).schedulerRoleCreated = false ∧
    (buildModels ⟨⟨none, [], some ⟨true⟩⟩⟩).schedules = [] :=
  c9_no_flags ⟨⟨none, [], some ⟨true⟩⟩⟩ (by decide) (by decide)

/-- C10: the `huggingfaceApiSecretArn` value does not influence the models
list or the serialized parameter value: two configurations differing only in
that field yield the same models and parameter string. -/
theorem c10_hf_arn_no_influence (llms : LlmsConfig) (a1 a2 : Option String) :
    (buildModels ⟨{ llms with huggingfaceApiSecretArn := a1 }⟩).models =
      (buildModels ⟨{ llms with huggingfaceApiSecretArn := a2 }⟩).models ∧
    (buildModels ⟨{ llms with huggingfaceApiSecretArn := a1 }⟩).modelsParameterValue =
      (buildModels ⟨{ llms with huggingfaceApiSecretArn := a2 }⟩).modelsParameterValue :=
  ⟨rfl, rfl⟩

end WakandaGriot
